import Mathlib

/-!
Shallow embedding of the two source files of the ProgLearn repository:
docs/tutorials/sample_size_experiment.py and proglearn/voters.py, together
with theorems checking the specification's claims about them.
-/

namespace SampleSizeExperiment

/-- Activation-function names used by the layers in sample_size_experiment.py
("relu", "sigmoid", "softmax"). -/
inductive Activation
  | relu
  | sigmoid
  | softmax
deriving DecidableEq

/-- The Keras layer constructors the tutorial file imports and applies:
Conv2D(filters, kernel_size, activation, input_shape), MaxPooling2D(pool_size),
Flatten(), Dense(units, activation).  Dropout is imported but never used. -/
inductive Layer
  | conv2D (filters : Int) (kernel_size : Int × Int) (activation : Activation)
      (input_shape : Option (Int × Int × Int))
  | maxPooling2D (pool_size : Int × Int)
  | flatten
  | dense (units : Int) (activation : Activation)
deriving DecidableEq

/-- The optimizers the file imports from tensorflow.keras.optimizers
(SGD and Adam); the type parameter rho stands for the floating-point
learning rate, carried opaquely. -/
inductive Optimizer (ρ : Type)
  | adam (learning_rate : ρ)
  | sgd (learning_rate : ρ)
deriving DecidableEq

/-- The arguments of one model.compile(optimizer=..., loss=..., metrics=...) call. -/
structure CompileConfig (ρ : Type) where
  optimizer : Optimizer ρ
  loss : String
  metrics : List String
deriving DecidableEq

/-- The keyword arguments of one Keras model.fit(x=..., y=..., epochs=...,
batch_size=..., validation_split=..., verbose=...) call; delta is the type of
the data arrays. -/
structure FitCall (δ ρ : Type) where
  x : δ
  y : δ
  epochs : Int
  batch_size : Int
  validation_split : ρ
  verbose : Int
deriving DecidableEq

/-- State of one Keras Sequential model object: an allocation identity plus
everything the tutorial code ever does to it (layers added in order, compile
calls in order, fit calls in order). -/
structure KModel (δ ρ : Type) where
  id : Nat
  layers : List Layer
  compiles : List (CompileConfig ρ)
  fits : List (FitCall δ ρ)
deriving DecidableEq

/-- Sequential() allocates a fresh, empty model object. -/
def Sequential (δ ρ : Type) (freshId : Nat) : KModel δ ρ :=
  ⟨freshId, [], [], []⟩

/-- model.add(layer): appends one layer; the object identity is unchanged
(Python mutates the object in place, embedded as state passing). -/
def KModel.add {δ ρ : Type} (m : KModel δ ρ) (l : Layer) : KModel δ ρ :=
  ⟨m.id, m.layers ++ [l], m.compiles, m.fits⟩

/-- model.compile(...): records one compile call on the same object. -/
def KModel.compileWith {δ ρ : Type} (m : KModel δ ρ) (cfg : CompileConfig ρ) :
    KModel δ ρ :=
  ⟨m.id, m.layers, m.compiles ++ [cfg], m.fits⟩

/-- model.fit(...): records one fit call on the same object. -/
def KModel.fitWith {δ ρ : Type} (m : KModel δ ρ) (fc : FitCall δ ρ) :
    KModel δ ρ :=
  ⟨m.id, m.layers, m.compiles, m.fits ++ [fc]⟩

/-- State of one sklearn RandomForestClassifier object: allocation identity,
the constructor arguments, and the fit calls in order.  The sklearn API has
no compile step. -/
structure RFModel (δ : Type) where
  id : Nat
  n_estimators : Int
  max_depth : Int
  verbose : Int
  fits : List (δ × δ)
deriving DecidableEq

/-- RandomForestClassifier(n_estimators=..., max_depth=..., verbose=...)
allocates a fresh model object. -/
def RandomForestClassifier (δ : Type) (freshId : Nat)
    (n_estimators max_depth verbose : Int) : RFModel δ :=
  ⟨freshId, n_estimators, max_depth, verbose, []⟩

/-- rf_model.fit(X, y): records one fit call on the same object. -/
def RFModel.fitWith {δ : Type} (m : RFModel δ) (X y : δ) : RFModel δ :=
  ⟨m.id, m.n_estimators, m.max_depth, m.verbose, m.fits ++ [(X, y)]⟩

/-- random_forest_classifier_model from sample_size_experiment.py, lines 18-42:
construct a RandomForestClassifier, fit it on (X_train, y_train), return it. -/
def random_forest_classifier_model {δ : Type} (freshId : Nat) (X_train y_train : δ)
    (num_trees max_depth verbose : Int) : RFModel δ :=
  let rf_model := RandomForestClassifier δ freshId num_trees max_depth verbose
  let rf_model := rf_model.fitWith X_train y_train
  rf_model

/-- binary_deep_neural_network from sample_size_experiment.py, lines 45-92.
num_features stands for the Python expression X_train.shape[1] (the second
component of the shape of the input array). -/
def binary_deep_neural_network {δ ρ : Type} (freshId : Nat) (X_train y_train : δ)
    (num_features epochs batch_size : Int) (learning_rate validation_split : ρ)
    (verbose : Int) : KModel δ ρ :=
  let dnn_model := Sequential δ ρ freshId
  let dnn_model := dnn_model.add (.dense num_features .relu)
  let dnn_model := dnn_model.add (.dense 8 .relu)
  let dnn_model := dnn_model.add (.dense 1 .sigmoid)
  let adam_optimizer := Optimizer.adam learning_rate
  let dnn_model := dnn_model.compileWith
    ⟨adam_optimizer, "binary_crossentropy", ["accuracy"]⟩
  let dnn_model := dnn_model.fitWith
    ⟨X_train, y_train, epochs, batch_size, validation_split, verbose⟩
  dnn_model

/-- multiclass_deep_neural_network from sample_size_experiment.py, lines 95-151. -/
def multiclass_deep_neural_network {δ ρ : Type} (freshId : Nat) (X_train y_train : δ)
    (output_nodes epochs batch_size : Int) (learning_rate validation_split : ρ)
    (verbose : Int) : KModel δ ρ :=
  let dnn_model_mc := Sequential δ ρ freshId
  let dnn_model_mc := dnn_model_mc.add (.dense 8 .relu)
  let dnn_model_mc := dnn_model_mc.add (.dense 8 .relu)
  let dnn_model_mc := dnn_model_mc.add (.dense output_nodes .softmax)
  let adam_optimizer := Optimizer.adam learning_rate
  let dnn_model_mc := dnn_model_mc.compileWith
    ⟨adam_optimizer, "categorical_crossentropy", ["accuracy"]⟩
  let dnn_model_mc := dnn_model_mc.fitWith
    ⟨X_train, y_train, epochs, batch_size, validation_split, verbose⟩
  dnn_model_mc

/-- The body of the loop at lines 198-199: for _ in range(1, complexity - 1):
cnn_model.add(Conv2D(64, (3, 3), activation="relu")), run for the number of
iterations of the Python range. -/
def convLoop {δ ρ : Type} (m : KModel δ ρ) : Nat → KModel δ ρ
  | 0 => m
  | Nat.succ n => convLoop (m.add (.conv2D 64 (3, 3) .relu none)) n

/-- parametric_convolutional_neural_network from sample_size_experiment.py,
lines 154-222.  range(1, complexity - 1) has ((complexity - 1) - 1).toNat
iterations (Python range over an empty interval iterates zero times). -/
def parametric_convolutional_neural_network {δ ρ : Type} (freshId : Nat)
    (X_train y_train : δ) (complexity epochs batch_size : Int)
    (learning_rate validation_split : ρ) (verbose : Int) : KModel δ ρ :=
  let cnn_model := Sequential δ ρ freshId
  let cnn_model := cnn_model.add (.conv2D 32 (3, 3) .relu (some (32, 32, 3)))
  let cnn_model := cnn_model.add (.conv2D 64 (3, 3) .relu none)
  let cnn_model := cnn_model.add (.maxPooling2D (2, 2))
  let cnn_model :=
    if 2 < complexity then
      (convLoop cnn_model (complexity - 1 - 1).toNat).add (.maxPooling2D (2, 2))
    else cnn_model
  let cnn_model := cnn_model.add .flatten
  let cnn_model := cnn_model.add (.dense 64 .relu)
  let cnn_model := cnn_model.add (.dense 1 .sigmoid)
  let adam_optimizer := Optimizer.adam learning_rate
  let cnn_model := cnn_model.compileWith
    ⟨adam_optimizer, "binary_crossentropy", ["accuracy"]⟩
  let cnn_model := cnn_model.fitWith
    ⟨X_train, y_train, epochs, batch_size, validation_split, verbose⟩
  cnn_model

/-- One call into the delegated ML libraries, as issued by the four factory
functions, in program order. -/
inductive Call (δ ρ : Type)
  | constructSequential
  | constructRandomForest (n_estimators max_depth verbose : Int)
  | addLayer (l : Layer)
  | compileModel (cfg : CompileConfig ρ)
  | fitModel (fc : FitCall δ ρ)
  | fitSklearn (X y : δ)
deriving DecidableEq

/-- Whether a library call is a model.compile call. -/
def Call.isCompile {δ ρ : Type} : Call δ ρ → Bool
  | .compileModel _ => true
  | _ => false

/-- Whether a library call constructs a model object. -/
def Call.isConstruct {δ ρ : Type} : Call δ ρ → Bool
  | .constructSequential => true
  | .constructRandomForest _ _ _ => true
  | _ => false

/-- Whether a library call is a fit call. -/
def Call.isFit {δ ρ : Type} : Call δ ρ → Bool
  | .fitModel _ => true
  | .fitSklearn _ _ => true
  | _ => false

/-- The sequence of library calls issued by random_forest_classifier_model
(lines 18-42): construct, then fit; nothing else. -/
def random_forest_classifier_model_calls (δ ρ : Type) (X_train y_train : δ)
    (num_trees max_depth verbose : Int) : List (Call δ ρ) :=
  [.constructRandomForest num_trees max_depth verbose,
   .fitSklearn X_train y_train]

/-- The sequence of library calls issued by binary_deep_neural_network
(lines 45-92). -/
def binary_deep_neural_network_calls (δ ρ : Type) (X_train y_train : δ)
    (num_features epochs batch_size : Int) (learning_rate validation_split : ρ)
    (verbose : Int) : List (Call δ ρ) :=
  [.constructSequential,
   .addLayer (.dense num_features .relu),
   .addLayer (.dense 8 .relu),
   .addLayer (.dense 1 .sigmoid),
   .compileModel ⟨Optimizer.adam learning_rate, "binary_crossentropy", ["accuracy"]⟩,
   .fitModel ⟨X_train, y_train, epochs, batch_size, validation_split, verbose⟩]

/-- The sequence of library calls issued by multiclass_deep_neural_network
(lines 95-151). -/
def multiclass_deep_neural_network_calls (δ ρ : Type) (X_train y_train : δ)
    (output_nodes epochs batch_size : Int) (learning_rate validation_split : ρ)
    (verbose : Int) : List (Call δ ρ) :=
  [.constructSequential,
   .addLayer (.dense 8 .relu),
   .addLayer (.dense 8 .relu),
   .addLayer (.dense output_nodes .softmax),
   .compileModel ⟨Optimizer.adam learning_rate, "categorical_crossentropy", ["accuracy"]⟩,
   .fitModel ⟨X_train, y_train, epochs, batch_size, validation_split, verbose⟩]

/-- The sequence of library calls issued by
parametric_convolutional_neural_network (lines 154-222). -/
def parametric_convolutional_neural_network_calls (δ ρ : Type) (X_train y_train : δ)
    (complexity epochs batch_size : Int) (learning_rate validation_split : ρ)
    (verbose : Int) : List (Call δ ρ) :=
  [.constructSequential,
   .addLayer (.conv2D 32 (3, 3) .relu (some (32, 32, 3))),
   .addLayer (.conv2D 64 (3, 3) .relu none),
   .addLayer (.maxPooling2D (2, 2))]
  ++ (if 2 < complexity then
        List.replicate (complexity - 1 - 1).toNat
          (Call.addLayer (.conv2D 64 (3, 3) .relu none))
        ++ [Call.addLayer (.maxPooling2D (2, 2))]
      else [])
  ++ [.addLayer .flatten,
      .addLayer (.dense 64 .relu),
      .addLayer (.dense 1 .sigmoid),
      .compileModel ⟨Optimizer.adam learning_rate, "binary_crossentropy", ["accuracy"]⟩,
      .fitModel ⟨X_train, y_train, epochs, batch_size, validation_split, verbose⟩]

/-- Run a sequence of library calls under a failure oracle: the oracle says
whether the n-th library call raises an error (some e) or succeeds (none).
The factory bodies contain no try/except, so the run stops at the first
raising call and the error value is handed back unchanged. -/
def runCalls {δ ρ ε : Type} (oracle : Nat → Option ε) :
    Nat → List (Call δ ρ) → Except ε Unit
  | _, [] => .ok ()
  | n, _ :: rest =>
    match oracle n with
    | some e => .error e
    | none => runCalls oracle (n + 1) rest

end SampleSizeExperiment

namespace Voters

/-- A Python value relevant to the attribute named is_fitted on a
ForestVoterClassification instance: either the bound method produced by
looking the name up on the class, or a bool stored in the instance dict. -/
inductive PyVal
  | boundMethod
  | pyBool (b : Bool)
deriving DecidableEq

/-- Instance state of a ForestVoterClassification object: one optional slot
per instance attribute the class body ever reads or writes.  The constructor
body is a single pass statement (all assignments are commented out,
voters.py lines 44-57), so a fresh instance has every slot empty. -/
structure FVCState where
  bagger : Option Unit
  learner : Option Unit
  max_depth : Option Unit
  min_samples_leaf : Option Unit
  max_features_tree : Option Unit
  n_estimators : Option Unit
  max_samples : Option Unit
  bootstrap : Option Unit
  ensemble : Option Unit
  is_fitted_attr : Option Bool
deriving DecidableEq

/-- The state produced by ForestVoterClassification.__init__ (body: pass). -/
def FVC_init : FVCState :=
  ⟨none, none, none, none, none, none, none, none, none, none⟩

/-- Python attribute lookup for self.is_fitted: the instance dict shadows the
class dict, so a stored bool wins; otherwise the lookup yields the bound
method defined at voters.py lines 99-103. -/
def lookup_is_fitted (s : FVCState) : PyVal :=
  match s.is_fitted_attr with
  | some b => .pyBool b
  | none => .boundMethod

/-- The body of the is_fitted method (voters.py line 103):
return self.is_fitted, i.e. it returns the very attribute lookup again. -/
def is_fitted_body (s : FVCState) : PyVal :=
  lookup_is_fitted s

/-- Outcome of evaluating the Python expression self.is_fitted(). -/
inductive CallOutcome
  | returns (v : PyVal)
  | typeError
deriving DecidableEq

/-- Evaluate self.is_fitted(): look the name up, then call the result.
Calling the bound method runs the body (which returns the lookup again);
calling a bool raises TypeError because bools are not callable. -/
def call_is_fitted (s : FVCState) : CallOutcome :=
  match lookup_is_fitted s with
  | .boundMethod => .returns (is_fitted_body s)
  | .pyBool _ => .typeError

/-- Python truthiness of the values the guard can see: a bound method object
is always truthy; a bool is its own truth value. -/
def truthy : PyVal → Bool
  | .boundMethod => true
  | .pyBool b => b

/-- Outcome of ForestVoterClassification.fit (voters.py lines 59-79). -/
inductive FitOutcome
  | valueError
  | attributeError (missing : String)
  | fitted
deriving DecidableEq

/-- ForestVoterClassification.fit: first check_X_y(X, y) (modelled as a
caller-supplied validity oracle raising ValueError on invalid input), then
the expression self.bagger(self.learner(max_depth=self.max_depth, ...),
n_estimators=..., max_samples=..., bootstrap=...) reads the configuration
attributes in Python evaluation order; the first missing one raises
AttributeError and nothing is assigned.  Only if all are present are
self.ensemble and self.is_fitted assigned (lines 68-79). -/
def FVC_fit {δ : Type} (check_X_y : δ → δ → Bool) (X y : δ) (s : FVCState) :
    FitOutcome × FVCState :=
  if check_X_y X y = false then (.valueError, s)
  else
    match s.bagger with
    | none => (.attributeError "bagger", s)
    | some _ =>
      match s.learner with
      | none => (.attributeError "learner", s)
      | some _ =>
        match s.max_depth with
        | none => (.attributeError "max_depth", s)
        | some _ =>
          match s.min_samples_leaf with
          | none => (.attributeError "min_samples_leaf", s)
          | some _ =>
            match s.max_features_tree with
            | none => (.attributeError "max_features_tree", s)
            | some _ =>
              match s.n_estimators with
              | none => (.attributeError "n_estimators", s)
              | some _ =>
                match s.max_samples with
                | none => (.attributeError "max_samples", s)
                | some _ =>
                  match s.bootstrap with
                  | none => (.attributeError "bootstrap", s)
                  | some _ =>
                    (.fitted,
                     ⟨s.bagger, s.learner, s.max_depth, s.min_samples_leaf,
                      s.max_features_tree, s.n_estimators, s.max_samples,
                      s.bootstrap, some (), some true⟩)

/-- An instance state with every configuration attribute present (as a user
could produce by assigning the attributes by hand); under it the fit body
reaches its final assignments. -/
def FVC_all_set : FVCState :=
  ⟨some (), some (), some (), some (), some (), some (), some (), some (),
   none, none⟩

/-- Outcome of ForestVoterClassification.transform (voters.py lines 83-96). -/
inductive TransformOutcome
  | notFittedError
  | typeError
  | valueError
  | attributeError (missing : String)
  | ok
deriving DecidableEq

/-- ForestVoterClassification.transform: evaluate the guard
if not self.is_fitted(): raise NotFittedError(...), then X = check_array(X)
(modelled as an oracle raising ValueError on invalid input), then read
self.ensemble.estimators_. -/
def FVC_transform {δ : Type} (check_array : δ → Bool) (X : δ) (s : FVCState) :
    TransformOutcome :=
  match call_is_fitted s with
  | .typeError => .typeError
  | .returns v =>
    if truthy v = false then .notFittedError
    else if check_array X = false then .valueError
    else
      match s.ensemble with
      | none => .attributeError "ensemble"
      | some _ => .ok

/-- One indentation character at the start of a physical source line. -/
inductive IndentChar
  | space
  | tab
deriving DecidableEq

/-- Advance a column past one indentation character, with a tab moving to the
next multiple of the tab size, as the CPython tokenizer does. -/
def colStep (tabsize : Nat) (c : Nat) : IndentChar → Nat
  | .space => c + 1
  | .tab => (c / tabsize + 1) * tabsize

/-- Column reached by an indentation prefix under a given tab size. -/
def col (tabsize : Nat) (ind : List IndentChar) : Nat :=
  ind.foldl (colStep tabsize) 0

/-- The pair of columns the CPython tokenizer tracks for each indentation:
the column under tab size 8 and the alternative column under tab size 1.
Indentation handling is only allowed to depend on the tab size when both
orderings agree; otherwise the tokenizer raises TabError. -/
def indentCols (ind : List IndentChar) : Nat × Nat :=
  (col 8 ind, col 1 ind)

/-- Tokenizer-level indentation errors. -/
inductive TokError
  | tabError
  | indentationError
deriving DecidableEq

/-- Dedent: pop indentation levels until one matches the new column exactly;
a nonmatching level is an IndentationError, and a matching column whose
alternative column disagrees is a TabError. -/
def popTo : List (Nat × Nat) → Nat × Nat → Except TokError (List (Nat × Nat))
  | [], _ => .error .indentationError
  | top :: rest, c =>
    if c.1 = top.1 then
      if c.2 = top.2 then .ok (top :: rest) else .error .tabError
    else if c.1 < top.1 then popTo rest c
    else .error .indentationError

/-- Process the indentation of one logical line against the indentation
stack, following the CPython tokenizer: equal columns must agree under both
tab sizes, an indent must increase under both tab sizes, and a dedent pops. -/
def tokStep (stack : List (Nat × Nat)) (c : Nat × Nat) :
    Except TokError (List (Nat × Nat)) :=
  match stack with
  | [] => .error .indentationError
  | top :: rest =>
    if c.1 = top.1 then
      if c.2 = top.2 then .ok (top :: rest) else .error .tabError
    else if top.1 < c.1 then
      if top.2 < c.2 then .ok (c :: top :: rest) else .error .tabError
    else popTo rest c

/-- Run the tokenizer's indentation check over the logical lines of a file,
given the indentation prefix of each line. -/
def tokenizeIndents : List (Nat × Nat) → List (List IndentChar) →
    Except TokError Unit
  | _, [] => .ok ()
  | stack, ind :: rest =>
    match tokStep stack (indentCols ind) with
    | .error e => .error e
    | .ok stack2 => tokenizeIndents stack2 rest

/-- n spaces. -/
def sp (n : Nat) : List IndentChar :=
  List.replicate n .space

/-- n tabs. -/
def tb (n : Nat) : List IndentChar :=
  List.replicate n .tab

/-- The indentation prefixes of the logical statement lines of
proglearn/voters.py, in file order (blank lines, comment-only lines and the
interior physical lines of string literals and parenthesised continuations
carry no indentation token and are omitted, as in the CPython tokenizer).
Line numbers refer to the source file. -/
def votersStatementIndents : List (List IndentChar) :=
  [ [],             -- line 1: import numpy as np
    [],             -- line 2: import abc
    [],             -- line 4: from sklearn.ensemble import BaggingClassifier
    [],             -- line 5: from sklearn.tree import DecisionTreeClassifier
    [],             -- lines 7-11: from sklearn.utils.validation import (...)
    [],             -- line 13: class BaseVoter(meta_class=abc.ABCMeta):
    tb 1,           -- lines 14-16: docstring
    tb 1,           -- line 18: @abc.abstractmethod
    tb 1,           -- line 19: def fit(self, X, y=None):
    tb 2,           -- lines 20-22: docstring
    tb 2,           -- line 24: pass
    tb 1,           -- line 26: @abc.abstractmethod
    tb 1,           -- line 27: def vote(self, X):
    tb 2,           -- lines 28-30: docstring
    tb 2,           -- line 32: pass
    tb 1,           -- line 34: @abc.abstractmethod
    tb 1,           -- line 35: def is_fitted(self):
    tb 2,           -- lines 36-38: docstring
    tb 2,           -- line 40: pass
    [],             -- line 43: class ForestVoterClassification(BaseVoter):
    tb 1,           -- line 44: def __init__(self):
    sp 8,           -- line 45: pass   (8 spaces after a tab-indented def)
    tb 1 ++ sp 4,   -- lines 46-48: stray docstring after the pass
    tb 1,           -- line 59: def fit(self, X, y):
    tb 2,           -- lines 60-62: docstring
    tb 2,           -- line 65: X, y = check_X_y(X, y)
    sp 8,           -- lines 68-76: self.ensemble = self.bagger(...)
    sp 8,           -- line 78: self.ensemble.fit(X, y)
    sp 8,           -- line 79: self.is_fitted = True
    sp 4,           -- line 83: def transform(self, X):
    sp 4 ++ tb 1,   -- lines 84-86: docstring
    sp 4 ++ tb 1,   -- line 88: if not self.is_fitted():
    sp 12,          -- lines 89-92: msg = (...)
    sp 12,          -- line 93: raise NotFittedError(...)
    sp 4 ++ tb 1,   -- line 95: X = check_array(X)
    sp 4 ++ tb 1,   -- line 96: return np.array([...])
    sp 4,           -- line 99: def is_fitted(self):
    sp 4 ++ tb 1,   -- lines 100-102: docstring
    sp 4 ++ tb 1,   -- line 103: return self.is_fitted
    [],             -- line 105: class ForestVoterRegression(BaseVoter):
    sp 4 ]          -- line 106: pass

/-- Indentation of the pass statement in __init__ (voters.py line 45). -/
def init_pass_indent : List IndentChar :=
  sp 8

/-- Indentation of the docstring placed after that pass (voters.py line 46). -/
def init_docstring_indent : List IndentChar :=
  tb 1 ++ sp 4

/-- A statement of a method body together with its indentation prefix. -/
inductive BodyStmt
  | passStmt
  | docstring
deriving DecidableEq

/-- The body of ForestVoterClassification.__init__ exactly as physically
written (voters.py lines 44-48): the pass statement comes first and the
docstring follows it, each with its actual indentation prefix. -/
def init_body_as_written : List (BodyStmt × List IndentChar) :=
  [(.passStmt, init_pass_indent), (.docstring, init_docstring_indent)]

/-- A method definition inside a class body: its name and decorator list. -/
structure MethodDecl where
  mname : String
  decorators : List String
deriving DecidableEq

/-- One item of a Python class body, as declared in the source. -/
inductive ClassBodyItem
  | docstring
  | passStmt
  | methodDef (m : MethodDecl)
deriving DecidableEq

/-- A class declaration: name, base classes, class keyword arguments,
and body items in source order. -/
structure ClassDecl where
  cname : String
  bases : List String
  keywords : List (String × String)
  body : List ClassBodyItem
deriving DecidableEq

/-- The methods a class body declares. -/
def ClassDecl.methods (c : ClassDecl) : List MethodDecl :=
  c.body.filterMap fun item =>
    match item with
    | .methodDef m => some m
    | _ => none

/-- The declaration of BaseVoter (voters.py lines 13-40).  Note the class
keyword is spelled meta_class, not metaclass. -/
def BaseVoterDecl : ClassDecl :=
  ⟨"BaseVoter", [], [("meta_class", "abc.ABCMeta")],
   [.docstring,
    .methodDef ⟨"fit", ["abc.abstractmethod"]⟩,
    .methodDef ⟨"vote", ["abc.abstractmethod"]⟩,
    .methodDef ⟨"is_fitted", ["abc.abstractmethod"]⟩]⟩

/-- The declaration of ForestVoterClassification (voters.py lines 43-103). -/
def ForestVoterClassificationDecl : ClassDecl :=
  ⟨"ForestVoterClassification", ["BaseVoter"], [],
   [.methodDef ⟨"__init__", []⟩,
    .methodDef ⟨"fit", []⟩,
    .methodDef ⟨"transform", []⟩,
    .methodDef ⟨"is_fitted", []⟩]⟩

/-- The declaration of ForestVoterRegression (voters.py lines 105-106):
its whole body is a single pass statement. -/
def ForestVoterRegressionDecl : ClassDecl :=
  ⟨"ForestVoterRegression", ["BaseVoter"], [], [.passStmt]⟩

/-- All class declarations in proglearn/voters.py. -/
def votersClasses : List ClassDecl :=
  [BaseVoterDecl, ForestVoterClassificationDecl, ForestVoterRegressionDecl]

/-- docs/tutorials/sample_size_experiment.py declares only functions,
no classes. -/
def sampleSizeExperimentClasses : List ClassDecl :=
  []

/-- All class declarations in the repository (its two source files). -/
def repoClasses : List ClassDecl :=
  votersClasses ++ sampleSizeExperimentClasses

/-- The class keyword argument Python class creation recognises specially:
only metaclass.  Any other keyword is forwarded to the base classes and
rejected by object.__init_subclass__ with a TypeError at class-creation
time (CPython semantics, modelled here as the acceptance predicate). -/
def pythonRecognizedClassKwarg (k : String) : Bool :=
  k = "metaclass"

/-- Whether a method declaration carries the abc.abstractmethod decorator. -/
def MethodDecl.isAbstract (m : MethodDecl) : Bool :=
  "abc.abstractmethod" ∈ m.decorators

/-- Names of the methods BaseVoter marks with abc.abstractmethod. -/
def abstractMethodNames : List String :=
  (BaseVoterDecl.methods.filter MethodDecl.isAbstract).map MethodDecl.mname

/-- Abstract operations of BaseVoter a subclass leaves unimplemented
(abstract names it does not override). -/
def unimplementedAbstract (c : ClassDecl) : List String :=
  abstractMethodNames.filter fun n =>
    (c.methods.map MethodDecl.mname).contains n = false

/-- Under abc.ABCMeta semantics, a class can be instantiated only when no
inherited abstract method is left unimplemented. -/
def canInstantiate (c : ClassDecl) : Bool :=
  unimplementedAbstract c = []

end Voters


namespace SampleSizeExperiment

/-- Unfolding the loop at lines 198-199: running it n times appends n copies
of Conv2D(64, (3, 3), activation="relu") and changes nothing else. -/
theorem convLoop_eq {δ ρ : Type} (n : Nat) (m : KModel δ ρ) :
    convLoop m n =
      ⟨m.id,
       m.layers ++ List.replicate n (Layer.conv2D 64 (3, 3) Activation.relu none),
       m.compiles, m.fits⟩ := by
  induction n generalizing m with
  | zero => simp [convLoop]
  | succ n ih => simp [convLoop, ih, KModel.add, List.replicate_succ]

/-- Full characterisation of parametric_convolutional_neural_network: the
returned object keeps the identity allocated by Sequential(), carries the
templated layer list, exactly one compile call and exactly one fit call. -/
theorem pcnn_eq {δ ρ : Type} (freshId : Nat) (X_train y_train : δ)
    (complexity epochs batch_size : Int) (learning_rate validation_split : ρ)
    (verbose : Int) :
    parametric_convolutional_neural_network freshId X_train y_train complexity
        epochs batch_size learning_rate validation_split verbose =
      ⟨freshId,
       [Layer.conv2D 32 (3, 3) Activation.relu (some (32, 32, 3)),
        Layer.conv2D 64 (3, 3) Activation.relu none,
        Layer.maxPooling2D (2, 2)]
       ++ (if 2 < complexity then
             List.replicate (complexity - 2).toNat
               (Layer.conv2D 64 (3, 3) Activation.relu none)
             ++ [Layer.maxPooling2D (2, 2)]
           else [])
       ++ [Layer.flatten, Layer.dense 64 Activation.relu,
           Layer.dense 1 Activation.sigmoid],
       [⟨Optimizer.adam learning_rate, "binary_crossentropy", ["accuracy"]⟩],
       [⟨X_train, y_train, epochs, batch_size, validation_split, verbose⟩]⟩ := by
  have hc : complexity - 1 - 1 = complexity - 2 := by omega
  by_cases h : 2 < complexity
  · simp [parametric_convolutional_neural_network, h, hc, convLoop_eq, Sequential,
      KModel.add, KModel.compileWith, KModel.fitWith]
  · simp [parametric_convolutional_neural_network, h, Sequential,
      KModel.add, KModel.compileWith, KModel.fitWith]

/-- C1: parametric_convolutional_neural_network always starts the network
with two Conv2D layers and one MaxPooling2D layer; when complexity > 2 it
adds exactly complexity - 2 further Conv2D layers followed by one
MaxPooling2D layer, placed before the Flatten and the two Dense layers;
when complexity <= 2 nothing is added beyond the base architecture. -/
theorem pcnn_architecture_template {δ ρ : Type} (freshId : Nat)
    (X_train y_train : δ) (complexity epochs batch_size : Int)
    (learning_rate validation_split : ρ) (verbose : Int) :
    (parametric_convolutional_neural_network freshId X_train y_train complexity
        epochs batch_size learning_rate validation_split verbose).layers =
      [Layer.conv2D 32 (3, 3) Activation.relu (some (32, 32, 3)),
       Layer.conv2D 64 (3, 3) Activation.relu none,
       Layer.maxPooling2D (2, 2)]
      ++ (if 2 < complexity then
            List.replicate (complexity - 2).toNat
              (Layer.conv2D 64 (3, 3) Activation.relu none)
            ++ [Layer.maxPooling2D (2, 2)]
          else [])
      ++ [Layer.flatten, Layer.dense 64 Activation.relu,
          Layer.dense 1 Activation.sigmoid] := by
  rw [pcnn_eq]

/-- C2 counterexample: the sequence of library calls issued by
random_forest_classifier_model contains no compile call at all (sklearn
models are never compiled), so the claim that each of the four factories
compiles its model is false for this one. -/
theorem rf_factory_has_no_compile_call :
    (random_forest_classifier_model_calls Nat Nat 0 1 100 5 0).countP
        Call.isCompile = 0 := by
  decide

/-- A predicate that is false on the replicated element counts zero in the
replicated list. -/
theorem countP_replicate_zero {α : Type} (p : α → Bool) (a : α)
    (h : p a = false) (n : Nat) :
    (List.replicate n a).countP p = 0 := by
  induction n with
  | zero => rfl
  | succ n ih => simp [List.replicate_succ, List.countP_cons, h, ih]

/-- C2 (amended): every factory constructs exactly one model object, fits it
exactly once on the given X_train and y_train, and returns that same object
(the identity allocated at construction); the three Keras factories compile
it exactly once, while random_forest_classifier_model compiles nothing. -/
theorem factories_construct_fit_once_return_same (δ ρ : Type) (freshId : Nat)
    (X_train y_train : δ)
    (num_trees max_depth num_features output_nodes complexity epochs batch_size
      verbose : Int)
    (learning_rate validation_split : ρ) :
    (random_forest_classifier_model freshId X_train y_train num_trees max_depth
        verbose).id = freshId
    ∧ (random_forest_classifier_model freshId X_train y_train num_trees
        max_depth verbose).fits = [(X_train, y_train)]
    ∧ (random_forest_classifier_model_calls δ ρ X_train y_train num_trees
        max_depth verbose).countP Call.isConstruct = 1
    ∧ (random_forest_classifier_model_calls δ ρ X_train y_train num_trees
        max_depth verbose).countP Call.isCompile = 0
    ∧ (random_forest_classifier_model_calls δ ρ X_train y_train num_trees
        max_depth verbose).countP Call.isFit = 1
    ∧ (binary_deep_neural_network freshId X_train y_train num_features epochs
        batch_size learning_rate validation_split verbose).id = freshId
    ∧ (binary_deep_neural_network freshId X_train y_train num_features epochs
        batch_size learning_rate validation_split verbose).fits =
        [⟨X_train, y_train, epochs, batch_size, validation_split, verbose⟩]
    ∧ (binary_deep_neural_network freshId X_train y_train num_features epochs
        batch_size learning_rate validation_split verbose).compiles =
        [⟨Optimizer.adam learning_rate, "binary_crossentropy", ["accuracy"]⟩]
    ∧ (binary_deep_neural_network_calls δ ρ X_train y_train num_features epochs
        batch_size learning_rate validation_split verbose).countP
        Call.isConstruct = 1
    ∧ (binary_deep_neural_network_calls δ ρ X_train y_train num_features epochs
        batch_size learning_rate validation_split verbose).countP
        Call.isCompile = 1
    ∧ (binary_deep_neural_network_calls δ ρ X_train y_train num_features epochs
        batch_size learning_rate validation_split verbose).countP
        Call.isFit = 1
    ∧ (multiclass_deep_neural_network freshId X_train y_train output_nodes
        epochs batch_size learning_rate validation_split verbose).id = freshId
    ∧ (multiclass_deep_neural_network freshId X_train y_train output_nodes
        epochs batch_size learning_rate validation_split verbose).fits =
        [⟨X_train, y_train, epochs, batch_size, validation_split, verbose⟩]
    ∧ (multiclass_deep_neural_network freshId X_train y_train output_nodes
        epochs batch_size learning_rate validation_split verbose).compiles =
        [⟨Optimizer.adam learning_rate, "categorical_crossentropy", ["accuracy"]⟩]
    ∧ (multiclass_deep_neural_network_calls δ ρ X_train y_train output_nodes
        epochs batch_size learning_rate validation_split verbose).countP
        Call.isConstruct = 1
    ∧ (multiclass_deep_neural_network_calls δ ρ X_train y_train output_nodes
        epochs batch_size learning_rate validation_split verbose).countP
        Call.isCompile = 1
    ∧ (multiclass_deep_neural_network_calls δ ρ X_train y_train output_nodes
        epochs batch_size learning_rate validation_split verbose).countP
        Call.isFit = 1
    ∧ (parametric_convolutional_neural_network freshId X_train y_train
        complexity epochs batch_size learning_rate validation_split
        verbose).id = freshId
    ∧ (parametric_convolutional_neural_network freshId X_train y_train
        complexity epochs batch_size learning_rate validation_split
        verbose).fits =
        [⟨X_train, y_train, epochs, batch_size, validation_split, verbose⟩]
    ∧ (parametric_convolutional_neural_network freshId X_train y_train
        complexity epochs batch_size learning_rate validation_split
        verbose).compiles =
        [⟨Optimizer.adam learning_rate, "binary_crossentropy", ["accuracy"]⟩]
    ∧ (parametric_convolutional_neural_network_calls δ ρ X_train y_train
        complexity epochs batch_size learning_rate validation_split
        verbose).countP Call.isConstruct = 1
    ∧ (parametric_convolutional_neural_network_calls δ ρ X_train y_train
        complexity epochs batch_size learning_rate validation_split
        verbose).countP Call.isCompile = 1
    ∧ (parametric_convolutional_neural_network_calls δ ρ X_train y_train
        complexity epochs batch_size learning_rate validation_split
        verbose).countP Call.isFit = 1 := by
  refine ⟨rfl, rfl, rfl, rfl, rfl, rfl, rfl, rfl, rfl, rfl, rfl, rfl, rfl, rfl,
    rfl, rfl, rfl, ?_, ?_, ?_, ?_, ?_, ?_⟩
  · rw [pcnn_eq]
  · rw [pcnn_eq]
  · rw [pcnn_eq]
  all_goals
    by_cases h : 2 < complexity <;>
      simp [parametric_convolutional_neural_network_calls, h,
        List.countP_append, List.countP_cons, countP_replicate_zero,
        Call.isConstruct, Call.isCompile, Call.isFit]

/-- If no library call raises, the whole call sequence runs to completion. -/
theorem runCalls_all_ok {δ ρ ε : Type} (oracle : Nat → Option ε)
    (hg : ∀ j, oracle j = none) (calls : List (Call δ ρ)) :
    ∀ n, runCalls oracle n calls = Except.ok () := by
  induction calls with
  | nil => intro n; rfl
  | cons c rest ih =>
    intro n
    simp only [runCalls, hg n]
    exact ih (n + 1)

/-- If the first raising library call is the k-th one and the sequence
reaches it, the run stops there with exactly that error. -/
theorem runCalls_first_error {δ ρ ε : Type} (oracle : Nat → Option ε) (e : ε) :
    ∀ (calls : List (Call δ ρ)) (n k : Nat),
      (∀ j, j < k → oracle (n + j) = none) → oracle (n + k) = some e →
      k < calls.length → runCalls oracle n calls = Except.error e := by
  intro calls
  induction calls with
  | nil =>
    intro n k _ _ hk
    exact absurd hk (by simp)
  | cons c rest ih =>
    intro n k h1 h2 hk
    cases k with
    | zero =>
      simp only [Nat.add_zero] at h2
      simp [runCalls, h2]
    | succ k =>
      have h0 : oracle n = none := by
        have := h1 0 k.succ_pos
        simpa using this
      simp only [runCalls, h0]
      refine ih (n + 1) k (fun j hj => ?_) ?_ (by simpa using hk)
      · have hidx : n + 1 + j = n + (j + 1) := by omega
        rw [hidx]
        exact h1 (j + 1) (Nat.succ_lt_succ hj)
      · have hidx : n + 1 + k = n + (k + 1) := by omega
        rw [hidx]
        exact h2

/-- C9: none of the four factories catches, wraps or raises anything of its
own: whenever the first raising library call is reached, the factory's run
ends with exactly that error value, and when no library call raises, the run
completes with no error at all. -/
theorem factories_add_no_error_handling (δ ρ ε : Type)
    (oracle good : Nat → Option ε) (k : Nat) (e : ε)
    (h1 : ∀ j, j < k → oracle j = none) (h2 : oracle k = some e)
    (hg : ∀ j, good j = none)
    (X_train y_train : δ)
    (num_trees max_depth num_features output_nodes complexity epochs batch_size
      verbose : Int)
    (learning_rate validation_split : ρ) :
    (k < (random_forest_classifier_model_calls δ ρ X_train y_train num_trees
          max_depth verbose).length →
        runCalls oracle 0 (random_forest_classifier_model_calls δ ρ X_train
          y_train num_trees max_depth verbose) = Except.error e)
    ∧ runCalls good 0 (random_forest_classifier_model_calls δ ρ X_train y_train
        num_trees max_depth verbose) = Except.ok ()
    ∧ (k < (binary_deep_neural_network_calls δ ρ X_train y_train num_features
          epochs batch_size learning_rate validation_split verbose).length →
        runCalls oracle 0 (binary_deep_neural_network_calls δ ρ X_train y_train
          num_features epochs batch_size learning_rate validation_split
          verbose) = Except.error e)
    ∧ runCalls good 0 (binary_deep_neural_network_calls δ ρ X_train y_train
        num_features epochs batch_size learning_rate validation_split verbose)
        = Except.ok ()
    ∧ (k < (multiclass_deep_neural_network_calls δ ρ X_train y_train
          output_nodes epochs batch_size learning_rate validation_split
          verbose).length →
        runCalls oracle 0 (multiclass_deep_neural_network_calls δ ρ X_train
          y_train output_nodes epochs batch_size learning_rate validation_split
          verbose) = Except.error e)
    ∧ runCalls good 0 (multiclass_deep_neural_network_calls δ ρ X_train y_train
        output_nodes epochs batch_size learning_rate validation_split verbose)
        = Except.ok ()
    ∧ (k < (parametric_convolutional_neural_network_calls δ ρ X_train y_train
          complexity epochs batch_size learning_rate validation_split
          verbose).length →
        runCalls oracle 0 (parametric_convolutional_neural_network_calls δ ρ
          X_train y_train complexity epochs batch_size learning_rate
          validation_split verbose) = Except.error e)
    ∧ runCalls good 0 (parametric_convolutional_neural_network_calls δ ρ
        X_train y_train complexity epochs batch_size learning_rate
        validation_split verbose) = Except.ok () := by
  have h1z : ∀ j, j < k → oracle (0 + j) = none := by
    intro j hj
    simpa using h1 j hj
  have h2z : oracle (0 + k) = some e := by simpa using h2
  exact ⟨fun hk => runCalls_first_error oracle e _ 0 k h1z h2z hk,
    runCalls_all_ok good hg _ 0,
    fun hk => runCalls_first_error oracle e _ 0 k h1z h2z hk,
    runCalls_all_ok good hg _ 0,
    fun hk => runCalls_first_error oracle e _ 0 k h1z h2z hk,
    runCalls_all_ok good hg _ 0,
    fun hk => runCalls_first_error oracle e _ 0 k h1z h2z hk,
    runCalls_all_ok good hg _ 0⟩

/-- Witness for C9: a concrete oracle whose second library call raises the
error value 7 makes random_forest_classifier_model end with exactly that
error, and an all-succeeding oracle lets the convolutional factory complete. -/
theorem factories_add_no_error_handling_witness :
    runCalls (fun n => if n = 1 then some 7 else none) 0
        (random_forest_classifier_model_calls Nat Nat 0 1 100 5 0)
      = Except.error 7
    ∧ runCalls (fun _ : Nat => (none : Option Nat)) 0
        (parametric_convolutional_neural_network_calls Nat Nat 0 1 5 2 3 0 0 0)
      = Except.ok () := by
  have h := factories_add_no_error_handling Nat Nat Nat
    (fun n => if n = 1 then some 7 else none) (fun _ => none) 1 7
    (fun j hj => by
      have hj0 : j = 0 := Nat.lt_one_iff.mp hj
      subst hj0
      rfl)
    rfl (fun _ => rfl) 0 1 100 5 3 4 5 2 3 0 0 0
  exact ⟨h.1 (by decide), h.2.2.2.2.2.2.2⟩

/-- C10: for any two complexity values at most 2 (zero and negative included)
and identical remaining arguments, parametric_convolutional_neural_network
builds the identical model object through the identical sequence of library
calls: complexity is unobservable below 3. -/
theorem pcnn_complexity_below_three_no_effect (δ ρ : Type) (freshId : Nat)
    (X_train y_train : δ) (c1 c2 epochs batch_size : Int)
    (learning_rate validation_split : ρ) (verbose : Int)
    (h1 : c1 ≤ 2) (h2 : c2 ≤ 2) :
    parametric_convolutional_neural_network freshId X_train y_train c1 epochs
        batch_size learning_rate validation_split verbose
      = parametric_convolutional_neural_network freshId X_train y_train c2
        epochs batch_size learning_rate validation_split verbose
    ∧ parametric_convolutional_neural_network_calls δ ρ X_train y_train c1
        epochs batch_size learning_rate validation_split verbose
      = parametric_convolutional_neural_network_calls δ ρ X_train y_train c2
        epochs batch_size learning_rate validation_split verbose := by
  have hn1 : ¬ 2 < c1 := by omega
  have hn2 : ¬ 2 < c2 := by omega
  constructor
  · rw [pcnn_eq, pcnn_eq]
    simp [hn1, hn2]
  · simp [parametric_convolutional_neural_network_calls, hn1, hn2]

/-- Witness for C10 at complexity 2 and complexity -7. -/
theorem pcnn_complexity_below_three_no_effect_witness :
    parametric_convolutional_neural_network 7 (0 : Nat) 1 2 5 10 (0 : Nat)
        (0 : Nat) 0
      = parametric_convolutional_neural_network 7 (0 : Nat) 1 (-7) 5 10
        (0 : Nat) (0 : Nat) 0
    ∧ parametric_convolutional_neural_network_calls Nat Nat 0 1 2 5 10 0 0 0
      = parametric_convolutional_neural_network_calls Nat Nat 0 1 (-7) 5 10
        0 0 0 :=
  pcnn_complexity_below_three_no_effect Nat Nat 7 0 1 2 (-7) 5 10 0 0 0
    (by decide) (by decide)

end SampleSizeExperiment

namespace Voters

/-- C3: the not-fitted guard in ForestVoterClassification.transform can never
raise NotFittedError: whatever state the instance is in (fit attempted or
not, is_fitted attribute set or not), evaluating
if not self.is_fitted(): raise NotFittedError(...) either passes the guard
(the bound method object returned by the shadowed is_fitted call is truthy)
or dies earlier with a TypeError (a stored bool is not callable). -/
theorem transform_guard_never_not_fitted (δ : Type) (check_array : δ → Bool)
    (X : δ) (s : FVCState) :
    FVC_transform check_array X s ≠ TransformOutcome.notFittedError := by
  cases h : s.is_fitted_attr with
  | none =>
    cases hc : check_array X <;> cases he : s.ensemble <;>
      simp [FVC_transform, call_is_fitted, lookup_is_fitted, is_fitted_body,
        truthy, h, hc, he]
  | some b =>
    simp [FVC_transform, call_is_fitted, lookup_is_fitted, h]

/-- Witness for C3 on a freshly constructed instance. -/
theorem transform_guard_never_not_fitted_witness :
    FVC_transform (fun _ : Nat => true) 0 FVC_init ≠
      TransformOutcome.notFittedError :=
  transform_guard_never_not_fitted Nat (fun _ => true) 0 FVC_init

/-- C4: the is_fitted name collision.  The method body returns the attribute
lookup of self.is_fitted itself; before any fit the call returns the bound
method object (not a boolean); and any run of fit that completes stores the
boolean True in the instance attribute, shadowing the method, after which
calling self.is_fitted() raises a TypeError. -/
theorem is_fitted_method_shadowing (δ : Type) :
    call_is_fitted FVC_init = CallOutcome.returns PyVal.boundMethod
    ∧ (∀ s : FVCState, is_fitted_body s = lookup_is_fitted s)
    ∧ (∀ s : FVCState, s.is_fitted_attr = none →
        call_is_fitted s = CallOutcome.returns PyVal.boundMethod)
    ∧ (∀ (check_X_y : δ → δ → Bool) (X y : δ) (s s2 : FVCState),
        FVC_fit check_X_y X y s = (FitOutcome.fitted, s2) →
        s2.is_fitted_attr = some true
        ∧ call_is_fitted s2 = CallOutcome.typeError) := by
  refine ⟨rfl, fun s => rfl, fun s hs => ?_, ?_⟩
  · simp [call_is_fitted, lookup_is_fitted, is_fitted_body, hs]
  · intro check_X_y X y s s2 h
    unfold FVC_fit at h
    repeat' split at h
    all_goals rw [Prod.mk.injEq] at h
    all_goals obtain ⟨ho, hs⟩ := h
    all_goals
      first
        | (subst hs; exact ⟨rfl, rfl⟩)
        | exact absurd ho (by simp)

/-- Witness for C4: on a fresh instance the call returns the bound method;
on an instance whose configuration attributes are all present, fit completes,
stores True, and the subsequent call raises TypeError. -/
theorem is_fitted_method_shadowing_witness :
    call_is_fitted FVC_init = CallOutcome.returns PyVal.boundMethod
    ∧ ((FVC_fit (fun _ _ : Nat => true) 0 0 FVC_all_set).2.is_fitted_attr
        = some true
       ∧ call_is_fitted (FVC_fit (fun _ _ : Nat => true) 0 0 FVC_all_set).2
        = CallOutcome.typeError) :=
  have h := is_fitted_method_shadowing Nat
  ⟨h.1,
   h.2.2.2 (fun _ _ => true) 0 0 FVC_all_set
     (FVC_fit (fun _ _ => true) 0 0 FVC_all_set).2 (by decide)⟩

/-- C5: on a freshly constructed ForestVoterClassification instance, whose
constructor sets none of the configuration attributes, any fit on valid
(X, y) raises AttributeError at the very first attribute read (self.bagger),
before self.ensemble or self.is_fitted is ever assigned, and leaves the
instance state unchanged. -/
theorem fresh_fit_attribute_error (δ : Type) (check_X_y : δ → δ → Bool)
    (X y : δ) (h : check_X_y X y = true) :
    FVC_fit check_X_y X y FVC_init = (FitOutcome.attributeError "bagger", FVC_init)
    ∧ FVC_init.bagger = none
    ∧ FVC_init.learner = none
    ∧ FVC_init.max_depth = none
    ∧ FVC_init.min_samples_leaf = none
    ∧ FVC_init.max_features_tree = none
    ∧ FVC_init.n_estimators = none
    ∧ FVC_init.max_samples = none
    ∧ FVC_init.bootstrap = none
    ∧ FVC_init.ensemble = none
    ∧ FVC_init.is_fitted_attr = none := by
  refine ⟨?_, rfl, rfl, rfl, rfl, rfl, rfl, rfl, rfl, rfl, rfl⟩
  simp [FVC_fit, h, FVC_init]

/-- Witness for C5 with an always-valid check_X_y oracle. -/
theorem fresh_fit_attribute_error_witness :
    FVC_fit (fun _ _ : Nat => true) 0 0 FVC_init
      = (FitOutcome.attributeError "bagger", FVC_init)
    ∧ FVC_init.ensemble = none
    ∧ FVC_init.is_fitted_attr = none :=
  have h := fresh_fit_attribute_error Nat (fun _ _ => true) 0 0 rfl
  ⟨h.1, h.2.2.2.2.2.2.2.2.2.1, h.2.2.2.2.2.2.2.2.2.2⟩

/-- C6: proglearn/voters.py cannot be compiled as written.  Running the
CPython tokenizer's indentation-consistency check over the file's statement
lines raises TabError (the 8-space pass at line 45 follows the tab-indented
def at line 44, and 8 spaces equal one tab under tab size 8 but not under
tab size 1); the __init__ body as written places the docstring after the
pass statement at a different indentation level; and BaseVoter is declared
with the unrecognised class keyword meta_class (not metaclass), which Python
rejects with a TypeError even at class-creation time. -/
theorem voters_module_not_compilable :
    tokenizeIndents [((0 : Nat), 0)] votersStatementIndents
      = Except.error TokError.tabError
    ∧ tokStep [((8 : Nat), 1), (0, 0)] (indentCols init_pass_indent)
      = Except.error TokError.tabError
    ∧ init_body_as_written
      = [(BodyStmt.passStmt, init_pass_indent),
         (BodyStmt.docstring, init_docstring_indent)]
    ∧ indentCols init_pass_indent ≠ indentCols init_docstring_indent
    ∧ BaseVoterDecl.keywords = [("meta_class", "abc.ABCMeta")]
    ∧ pythonRecognizedClassKwarg "meta_class" = false := by
  refine ⟨rfl, rfl, rfl, by decide, rfl, by decide⟩

/-- C7: BaseVoter declares exactly three methods, all marked with
abc.abstractmethod, named fit, vote and is_fitted, and exactly two classes
in the repository list BaseVoter as a base: ForestVoterClassification and
ForestVoterRegression. -/
theorem base_voter_abstract_interface :
    (BaseVoterDecl.methods.filter MethodDecl.isAbstract).map MethodDecl.mname
      = ["fit", "vote", "is_fitted"]
    ∧ BaseVoterDecl.methods.length = 3
    ∧ (repoClasses.filter fun c => "BaseVoter" ∈ c.bases).map ClassDecl.cname
      = ["ForestVoterClassification", "ForestVoterRegression"] := by
  refine ⟨by decide, by decide, by decide⟩

/-- C8: ForestVoterRegression is an empty stub: its body is a single pass
statement, it declares no methods, it leaves all three abstract operations
of BaseVoter unimplemented, and under abc.ABCMeta semantics it therefore
cannot be instantiated. -/
theorem forest_voter_regression_stub :
    ForestVoterRegressionDecl.body = [ClassBodyItem.passStmt]
    ∧ ForestVoterRegressionDecl.methods = []
    ∧ unimplementedAbstract ForestVoterRegressionDecl
      = ["fit", "vote", "is_fitted"]
    ∧ canInstantiate ForestVoterRegressionDecl = false := by
  refine ⟨rfl, rfl, by decide, by decide⟩

end Voters
